import Mathlib

/-!
Shallow embedding of the concurrent-transactions simulator
(`src/models/recurso.py`, `src/models/transacao.py`, `main.py`).

The Python program is a lock manager with a per-resource wait queue, a
global wait-for graph (a networkx `DiGraph`), cycle detection and the
Wait-Die arbiter.  All shared-state mutations of interest happen inside
critical sections (`with self.lock_global`, `with self._lock`), so each
critical section is embedded as a pure state-transition function.
Machine integers do not overflow here (timestamps are Python ints drawn
from 1..1000), so timestamps are `Nat`.
-/

namespace Simulador

/-- The Python field `valor_lock : Optional[bool]` is in fact used with
three kinds of values: `None` (free), `True` (set by
`Transacao.lock_recurso`), and a transaction id string (set by
`Recurso.acquire`, which assigns `self.valor_lock = tid` despite the
declared type).  Python equality distinguishes all three
(`True == "T1"` is `False`), so the embedding is a three-way sum. -/
inductive ValorLock where
  | livre
  | flagTrue
  | porTid (t : String)
deriving DecidableEq, Repr

/-- `Recurso` (src/models/recurso.py): one shared item.
`item_id` identity, `valor_lock` the lock cell, `transacao` the recorded
holder tid, `fila_espera` the FIFO wait queue. -/
structure Recurso where
  item_id : String
  valor_lock : ValorLock
  transacao : Option String
  fila_espera : List String
deriving DecidableEq, Repr

/-- The wait-for graph: embedding of the networkx `DiGraph` used as
`grafo_espera`.  networkx keeps a node set and an edge set; `add_edge`
inserts both endpoints and is idempotent on the edge set. -/
structure GrafoEspera where
  nodes : List String
  edges : List (String × String)
deriving DecidableEq, Repr

def GrafoEspera.empty : GrafoEspera := ⟨[], []⟩

def GrafoEspera.has_node (g : GrafoEspera) (u : String) : Bool :=
  decide (u ∈ g.nodes)

def GrafoEspera.has_edge (g : GrafoEspera) (u v : String) : Bool :=
  decide ((u, v) ∈ g.edges)

def GrafoEspera.addNode (g : GrafoEspera) (u : String) : GrafoEspera :=
  if u ∈ g.nodes then g else { g with nodes := g.nodes ++ [u] }

/-- `DiGraph.add_edge u v`: add both endpoints as nodes and the edge;
idempotent. -/
def GrafoEspera.add_edge (g : GrafoEspera) (u v : String) : GrafoEspera :=
  let g1 := (g.addNode u).addNode v
  if (u, v) ∈ g1.edges then g1 else { g1 with edges := g1.edges ++ [(u, v)] }

/-- `DiGraph.remove_edge u v` (only called under a `has_edge` guard in the
source). -/
def GrafoEspera.remove_edge (g : GrafoEspera) (u v : String) : GrafoEspera :=
  { g with edges := g.edges.filter (fun e => decide (e ≠ (u, v))) }

/-- `DiGraph.remove_node u`: delete the node and all incident edges. -/
def GrafoEspera.remove_node (g : GrafoEspera) (u : String) : GrafoEspera :=
  { nodes := g.nodes.filter (fun x => decide (x ≠ u)),
    edges := g.edges.filter (fun e => decide (e.1 ≠ u ∧ e.2 ≠ u)) }

/-- Successors of `u` in the graph. -/
def GrafoEspera.succs (g : GrafoEspera) (u : String) : List String :=
  (g.edges.filter (fun e => decide (e.1 = u))).map (fun e => e.2)

/-- One breadth step of forward reachability: add all unvisited
successors of the accumulated set. -/
def reachStep (g : GrafoEspera) (acc : List String) : List String :=
  acc ++ (((acc.map g.succs).flatten).filter (fun v => decide (v ∉ acc))).dedup

/-- Fuelled forward-reachability closure. -/
def reachFuel (g : GrafoEspera) : Nat → List String → List String
  | 0, acc => acc
  | n + 1, acc => reachFuel g n (reachStep g acc)

/-- `Transacao.detect_deadlock` (transacao.py lines 187-204): the source
lists all simple cycles (networkx `simple_cycles`) and asks whether `tid`
occurs in one.  A node lies on a simple cycle iff it is reachable from
one of its own successors, so the embedding decides exactly that; every
reachable node is a target of some edge, hence `edges.length + 1` breadth
steps reach the closure. -/
def detect_deadlock (g : GrafoEspera) (tid : String) : Bool :=
  decide (tid ∈ reachFuel g (g.edges.length + 1) (g.succs tid))

/-- Worker state relevant to the embedded transitions: identity,
timestamp and the one-way `terminada` flag (`Transacao.__init__`). -/
structure Transacao where
  tid : String
  timestamp : Nat
  terminada : Bool
deriving DecidableEq, Repr

/-- The `transacoes_timestamp` directory: tid to logical timestamp
(`TransacaoInfo.timestamp`), write-once at construction. -/
def lookupTs (dir : List (String × Nat)) (t : String) : Option Nat :=
  (dir.find? (fun p => decide (p.1 = t))).map (fun p => p.2)

/-- `Recurso.acquire` (recurso.py lines 34-53): if the lock cell is free,
record the grant by storing THE TID STRING in `valor_lock` and in
`transacao`; otherwise append the caller to the wait queue if absent and
report failure. -/
def Recurso.acquire (r : Recurso) (tid : String) : Bool × Recurso :=
  if r.valor_lock = ValorLock.livre then
    (true, { r with valor_lock := ValorLock.porTid tid, transacao := some tid })
  else
    (false,
      if tid ∈ r.fila_espera then r
      else { r with fila_espera := r.fila_espera ++ [tid] })

/-- `Recurso.release` (recurso.py lines 55-70): only when
`valor_lock == tid` (Python equality against the stored cell) clear the
cell and the holder, and pop the head of the wait queue if any. -/
def Recurso.release (r : Recurso) (tid : String) : Recurso :=
  if r.valor_lock = ValorLock.porTid tid then
    let r1 : Recurso := { r with valor_lock := ValorLock.livre, transacao := none }
    match r1.fila_espera with
    | [] => r1
    | _ :: rest => { r1 with fila_espera := rest }
  else r

/-- `Transacao.unlock_recurso` (transacao.py lines 167-185): under the
global lock, if this worker is the recorded holder, clear the lock cell
and the holder; otherwise do nothing. -/
def unlock_recurso (tid : String) (r : Recurso) : Recurso :=
  if r.transacao = some tid then
    { r with valor_lock := ValorLock.livre, transacao := none }
  else r

/-- The grant step inside `lock_recurso`'s wait loop (transacao.py lines
131-148), the source's realisation of the spec operation `try_acquire`:
under the global lock, grant exactly when the lock cell is free and the
wait queue is empty or headed by `tid`; on a grant set the cell to the
boolean `True`, record the holder, and remove the first occurrence of
`tid` from the queue (`list.remove`).  Otherwise leave everything
unchanged. -/
def try_acquire (tid : String) (r : Recurso) : Bool × Recurso :=
  if r.valor_lock = ValorLock.livre ∧
      (r.fila_espera = [] ∨ r.fila_espera.head? = some tid) then
    (true, { r with valor_lock := ValorLock.flagTrue, transacao := some tid,
                    fila_espera := r.fila_espera.erase tid })
  else (false, r)

/-- Result of the entry dispatch of `Transacao.lock_recurso` (transacao.py
lines 86-110): either the call returns `True` at once (cases 1 and 2), or
the worker enqueues itself, records the wait edge and enters the wait
loop (case 3). -/
inductive LockEntry where
  | retTrue (r : Recurso) (g : GrafoEspera)
  | waiting (other : Option String) (r : Recurso) (g : GrafoEspera)
deriving DecidableEq, Repr

/-- Entry dispatch of `Transacao.lock_recurso` (transacao.py lines
86-110).  Case 1: resource free and no one queued — grant immediately,
setting `valor_lock = True` (the boolean) and the holder.  Case 2: this
worker is already the recorded holder — return `True`, no mutation.
Case 3: capture `other_tid = recurso.transacao`, append self to the wait
queue, and when `other_tid` is not `None` insert the wait edge
`tid → other_tid` into the graph — with no timestamp comparison. -/
def lock_recurso_entry (t : Transacao) (r : Recurso) (g : GrafoEspera) : LockEntry :=
  if r.valor_lock = ValorLock.livre ∧ r.fila_espera = [] then
    LockEntry.retTrue
      { r with valor_lock := ValorLock.flagTrue, transacao := some t.tid } g
  else if r.transacao = some t.tid then
    LockEntry.retTrue r g
  else
    let other := r.transacao
    let r1 : Recurso := { r with fila_espera := r.fila_espera ++ [t.tid] }
    let g1 := match other with
      | some o => g.add_edge t.tid o
      | none => g
    LockEntry.waiting other r1 g1

/-- Wait-Die decision of `Transacao.apply_wait_die` (transacao.py lines
224-231) as a pure function of the two timestamps: the requester waits
exactly when it is strictly older. -/
inductive WaitDieDecision where
  | waitOn
  | die
deriving DecidableEq, Repr

def apply_wait_die_decision (minha_ts outra_ts : Nat) : WaitDieDecision :=
  if minha_ts < outra_ts then WaitDieDecision.waitOn else WaitDieDecision.die

/-- Per-resource effect of `Transacao.abort` (transacao.py lines 250-259):
remove the first occurrence of the victim tid from the wait queue
(`list.remove`, guarded by membership), then, if the victim is the
recorded holder, clear the lock cell and the holder. -/
def abortRecurso (tid : String) (r : Recurso) : Recurso :=
  let r1 : Recurso := { r with fila_espera := r.fila_espera.erase tid }
  if r1.transacao = some tid then
    { r1 with valor_lock := ValorLock.livre, transacao := none }
  else r1

/-- Global state shared by every worker: the resource table and the
wait-for graph (`main.py` builds both and every `Transacao` holds
references). -/
structure Estado where
  recursos : List Recurso
  grafo : GrafoEspera
deriving DecidableEq, Repr

def getRecurso (e : Estado) (item : String) : Option Recurso :=
  e.recursos.find? (fun r => decide (r.item_id = item))

def setRecurso (e : Estado) (r : Recurso) : Estado :=
  { e with recursos := e.recursos.map (fun x => if x.item_id = r.item_id then r else x) }

/-- State effect of `Transacao.abort` (transacao.py lines 249-267): scrub
the victim from every resource's wait queue, force-release everything it
holds, remove its node (and hence all incident edges) from the wait-for
graph if present, and set `terminada`.  The function then raises
`AbortException`; the effect below is the state at the instant of the
raise. -/
def abortEffect (t : Transacao) (e : Estado) : Estado × Transacao :=
  ( { recursos := e.recursos.map (abortRecurso t.tid),
      grafo := if e.grafo.has_node t.tid then e.grafo.remove_node t.tid else e.grafo },
    { t with terminada := true } )

/-- Outcome of `Transacao.apply_wait_die` (transacao.py lines 206-231)
including its side effect.  `noHolder`: the recorded holder is gone,
return `False` with no arbitration.  `keptWaiting`: the requester is
strictly older, return `False` without aborting anyone.  `aborted v`:
the requester is younger or of equal timestamp; `self.abort` runs and
raises, and the victim `v` is the caller itself.  `none` models the
Python `KeyError` when the holder tid is missing from the timestamp
directory. -/
inductive WaitDieOutcome where
  | noHolder
  | keptWaiting
  | aborted (victim : String)
deriving DecidableEq, Repr

def apply_wait_die_run (t : Transacao) (dir : List (String × Nat))
    (r : Recurso) : Option WaitDieOutcome :=
  match r.transacao with
  | none => some WaitDieOutcome.noHolder
  | some h =>
    match lookupTs dir h with
    | none => none
    | some outra_ts =>
      match apply_wait_die_decision t.timestamp outra_ts with
      | WaitDieDecision.waitOn => some WaitDieOutcome.keptWaiting
      | WaitDieDecision.die => some (WaitDieOutcome.aborted t.tid)

/-- Result of one iteration of `lock_recurso`'s wait loop (transacao.py
lines 114-164). -/
inductive IterResult where
  /-- The `while` guard failed, the loop exits and the function falls
  through to the final `return False` (line 164). -/
  | exitedFalse
  /-- The in-loop grant (lines 134-148) fired: `lock_recurso` returns
  `True` with the updated state. -/
  | grantedTrue (e : Estado)
  /-- Deadlock was detected, the holder is present and the requester is
  strictly older: `apply_wait_die` returns `False` (wait) and
  `lock_recurso` nevertheless executes `return False` (line 158), with
  the state unchanged and the worker not terminated. -/
  | waitDecisionFalse (e : Estado)
  /-- Deadlock was detected and the requester is younger or equal:
  `self.abort` runs and `AbortException` propagates out of
  `lock_recurso`. -/
  | abortRaised (e : Estado) (t : Transacao)
  /-- No grant and no decisive deadlock handling: loop again. -/
  | continued (e : Estado)
  /-- The resource id or the holder timestamp is missing from its table
  (Python `KeyError`). -/
  | lookupError
deriving DecidableEq, Repr

/-- One iteration of the wait loop of `Transacao.lock_recurso`
(transacao.py lines 114-164), for worker `t` waiting on `item`, where
`other` is the `other_tid` captured at entry (line 102).  In order: the
`while` guard (line 114); the in-loop grant under the global lock (lines
131-148), which also removes the captured wait edge when present; the
deadlock check (line 151); and the Wait-Die dispatch (lines 156-162),
whose `return False` at line 158 runs no matter which decision
`apply_wait_die` returned. -/
def lock_loop_iter (t : Transacao) (item : String) (other : Option String)
    (dir : List (String × Nat)) (e : Estado) : IterResult :=
  match getRecurso e item with
  | none => IterResult.lookupError
  | some r =>
    if r.transacao = some t.tid ∨ t.terminada then IterResult.exitedFalse
    else
      if r.valor_lock = ValorLock.livre ∧
          (r.fila_espera = [] ∨ r.fila_espera.head? = some t.tid) then
        let r1 : Recurso :=
          { r with valor_lock := ValorLock.flagTrue, transacao := some t.tid,
                   fila_espera := r.fila_espera.erase t.tid }
        let e1 := setRecurso e r1
        let e2 : Estado :=
          match other with
          | some o =>
            if e1.grafo.has_edge t.tid o then
              { e1 with grafo := e1.grafo.remove_edge t.tid o }
            else e1
          | none => e1
        IterResult.grantedTrue e2
      else
        if detect_deadlock e.grafo t.tid then
          match r.transacao with
          | some h =>
            match lookupTs dir h with
            | none => IterResult.lookupError
            | some outra_ts =>
              if t.timestamp < outra_ts then IterResult.waitDecisionFalse e
              else
                let (e1, t1) := abortEffect t e
                IterResult.abortRaised e1 t1
          | none => IterResult.continued e
        else IterResult.continued e

/-- The `finally` arm of `Transacao.run` (transacao.py line 71):
`self.terminada = True`, executed after every pass of the schedule,
whether it committed or was aborted. -/
def setTerminada (x : Transacao) : Transacao := { x with terminada := true }

/-- Outcome tag of one pass of the access schedule inside `Transacao.run`
(transacao.py lines 36-69): the `try` block either completes normally
(the commit branch) or is interrupted by `AbortException`, which the
`except` arm swallows.  Both paths fall through to `finally`. -/
inductive RunOutcome where
  | commit
  | abortCaught
deriving DecidableEq, Repr

/-- The `while not self.terminada` loop of `Transacao.run` (transacao.py
lines 33-71), with the body of the `try`/`except` abstracted as an
arbitrary function `body` of the worker and the shared state (its only
two exits are normal completion and a caught `AbortException`, which is
why it can return either tag but never escapes the loop).  The `finally`
arm sets `terminada := true` unconditionally after every pass.  `fuel`
bounds the number of guard evaluations; the returned `Nat` counts how
many times the schedule body ran. -/
def run_loop (body : Transacao → Estado → Transacao × Estado × RunOutcome) :
    Nat → Transacao → Estado → Transacao × Estado × Nat
  | 0, t, e => (t, e, 0)
  | n + 1, t, e =>
    if t.terminada then (t, e, 0)
    else
      let b := body t e
      let rest := run_loop body n (setTerminada b.1) b.2.1
      (rest.1, rest.2.1, rest.2.2 + 1)

/-- Resource component of a `lock_recurso` entry result. -/
def LockEntry.recursoOf : LockEntry → Recurso
  | LockEntry.retTrue r _ => r
  | LockEntry.waiting _ r _ => r

/-- Graph component of a `lock_recurso` entry result. -/
def LockEntry.grafoOf : LockEntry → GrafoEspera
  | LockEntry.retTrue _ g => g
  | LockEntry.waiting _ _ g => g

/-! Concrete states used to evaluate the embedded code at specific
inputs.  `cycleAB` is the classic AB-BA wait-for cycle between `T0`
and `T1`. -/

def cycleAB : GrafoEspera := ⟨["T1", "T0"], [("T1", "T0"), ("T0", "T1")]⟩

/-- Requester `T1` with timestamp 3 (older than `T0`'s 10), still
running. -/
def reqOlder : Transacao := ⟨"T1", 3, false⟩

/-- Deadlocked table: `X` held by `T0` with `T1` queued, `Y` held by
`T1` with `T0` queued. -/
def estadoAB : Estado :=
  ⟨[⟨"X", ValorLock.flagTrue, some "T0", ["T1"]⟩,
    ⟨"Y", ValorLock.flagTrue, some "T1", ["T0"]⟩], cycleAB⟩

def dirAB : List (String × Nat) := [("T0", 10), ("T1", 3)]

/-- A resource as `lock_recurso` leaves it right after a grant: lock
cell `True`, holder recorded, nobody queued. -/
def heldByT0 : Recurso := ⟨"X", ValorLock.flagTrue, some "T0", []⟩

/-- A free resource named `X`, as built by `main.py`. -/
def livreX : Recurso := ⟨"X", ValorLock.livre, none, []⟩

/-- A worker state used for the `run` loop evaluation. -/
def runWorker : Transacao := ⟨"T2", 7, false⟩

/-- A schedule body that touches nothing, used only to evaluate
`run_loop` at a concrete input. -/
def idBody : Transacao → Estado → Transacao × Estado × RunOutcome :=
  fun t e => (t, e, RunOutcome.commit)

/-! ## Helper lemmas -/

theorem abortRecurso_fila (tid : String) (r : Recurso) :
    (abortRecurso tid r).fila_espera = r.fila_espera.erase tid := by
  simp only [abortRecurso]
  by_cases h : r.transacao = some tid <;> simp [h]

theorem abortRecurso_transacao_ne (tid : String) (r : Recurso) :
    (abortRecurso tid r).transacao ≠ some tid := by
  simp only [abortRecurso]
  by_cases h : r.transacao = some tid <;> simp [h]

theorem not_mem_erase_of_count_le_one (a : String) (l : List String)
    (h : l.count a ≤ 1) : a ∉ l.erase a := by
  intro hmem
  have hpos : 0 < (l.erase a).count a := List.count_pos_iff.mpr hmem
  rw [List.count_erase_self] at hpos
  omega

theorem has_node_remove_node (g : GrafoEspera) (u : String) :
    (g.remove_node u).has_node u = false := by
  unfold GrafoEspera.remove_node GrafoEspera.has_node
  simp [List.mem_filter]

theorem abortEffect_grafo_clean (t : Transacao) (e : Estado) :
    ((abortEffect t e).1).grafo.has_node t.tid = false := by
  unfold abortEffect
  by_cases h : e.grafo.has_node t.tid = true
  · simp only [h, if_true]
    exact has_node_remove_node e.grafo t.tid
  · simp only [Bool.not_eq_true] at h
    simp only [h, Bool.false_eq_true, if_false]

theorem abortRecurso_fixed (tid : String) (r : Recurso)
    (h1 : tid ∉ r.fila_espera) (h2 : r.transacao ≠ some tid) :
    abortRecurso tid r = r := by
  simp only [abortRecurso]
  rw [List.erase_of_not_mem h1]
  simp [h2]

theorem abortRecurso_idem (tid : String) (r : Recurso)
    (h : r.fila_espera.count tid ≤ 1) :
    abortRecurso tid (abortRecurso tid r) = abortRecurso tid r := by
  have h1 : tid ∉ (abortRecurso tid r).fila_espera := by
    rw [abortRecurso_fila]
    exact not_mem_erase_of_count_le_one _ _ h
  exact abortRecurso_fixed tid _ h1 (abortRecurso_transacao_ne tid r)

theorem run_loop_of_terminada (body : Transacao → Estado → Transacao × Estado × RunOutcome)
    (n : Nat) (t : Transacao) (e : Estado) (h : t.terminada = true) :
    run_loop body n t e = (t, e, 0) := by
  cases n with
  | zero => rfl
  | succ n => simp [run_loop, h]

/-! ## Claims -/

/-- C1: Wait-Die arbitration (`Transacao.apply_wait_die`): with the
holder `h` recorded on the resource and its timestamp `ts_h` in the
directory, the requester keeps waiting (and nobody is aborted) exactly
when `ts_r < ts_h`, and aborts exactly when `ts_r ≥ ts_h` (equal
timestamps included); the victim of a die decision is always the
requester itself, never the holder. -/
theorem C1_wait_die_requester_always_victim (t : Transacao)
    (dir : List (String × Nat)) (r : Recurso) (h : String) (ts_h : Nat)
    (hh : r.transacao = some h) (hts : lookupTs dir h = some ts_h) :
    (apply_wait_die_run t dir r = some WaitDieOutcome.keptWaiting ↔ t.timestamp < ts_h)
    ∧ (apply_wait_die_run t dir r = some (WaitDieOutcome.aborted t.tid) ↔ ts_h ≤ t.timestamp)
    ∧ (∀ v, apply_wait_die_run t dir r = some (WaitDieOutcome.aborted v) → v = t.tid)
    ∧ (h ≠ t.tid → apply_wait_die_run t dir r ≠ some (WaitDieOutcome.aborted h)) := by
  have key : apply_wait_die_run t dir r
      = if t.timestamp < ts_h then some WaitDieOutcome.keptWaiting
        else some (WaitDieOutcome.aborted t.tid) := by
    by_cases hlt : t.timestamp < ts_h <;>
      simp [apply_wait_die_run, hh, hts, apply_wait_die_decision, hlt]
  rw [key]
  by_cases hlt : t.timestamp < ts_h
  · rw [if_pos hlt]
    refine ⟨by simp [hlt], ⟨fun hc => absurd hc (by simp), fun hge => absurd hge (by omega)⟩,
      fun v hv => absurd hv (by simp), fun hne hc => absurd hc (by simp)⟩
  · rw [if_neg hlt]
    refine ⟨⟨fun hc => absurd hc (by simp), fun hlt2 => absurd hlt2 hlt⟩,
      ⟨fun _ => by omega, fun _ => rfl⟩, fun v hv => ?_, fun hne hc => ?_⟩
    · exact ((WaitDieOutcome.aborted.injEq t.tid v).mp (Option.some_inj.mp hv)).symm
    · exact hne (((WaitDieOutcome.aborted.injEq t.tid h).mp (Option.some_inj.mp hc)).symm)

theorem C1_witness :
    apply_wait_die_run reqOlder dirAB heldByT0 = some WaitDieOutcome.keptWaiting :=
  (C1_wait_die_requester_always_victim reqOlder dirAB heldByT0 "T0" 10
    (by decide) (by decide)).1.mpr (by decide)

/-- C3: the acquisition step of `lock_recurso`'s wait loop (the source's
`try_acquire`) grants iff the lock cell is free and the wait queue is
empty or headed by the caller; on a grant it records the caller as
holder and removes it from the queue; otherwise it changes nothing; and
a grant taken with a non-empty queue always goes to the queue's head,
so grants follow insertion order. -/
theorem C3_try_acquire_guard (tid : String) (r : Recurso) :
    ((try_acquire tid r).1 = true ↔
      r.valor_lock = ValorLock.livre ∧
        (r.fila_espera = [] ∨ r.fila_espera.head? = some tid))
    ∧ ((try_acquire tid r).1 = true →
        (try_acquire tid r).2.transacao = some tid
        ∧ (try_acquire tid r).2.valor_lock = ValorLock.flagTrue
        ∧ (try_acquire tid r).2.fila_espera = r.fila_espera.erase tid)
    ∧ ((try_acquire tid r).1 = false → (try_acquire tid r).2 = r)
    ∧ ((try_acquire tid r).1 = true → r.fila_espera ≠ [] →
        r.fila_espera.head? = some tid) := by
  unfold try_acquire
  by_cases hc : r.valor_lock = ValorLock.livre ∧
      (r.fila_espera = [] ∨ r.fila_espera.head? = some tid)
  · rw [if_pos hc]
    refine ⟨by simpa using hc, fun _ => ⟨rfl, rfl, rfl⟩, by simp, fun _ hne => ?_⟩
    rcases hc.2 with h | h
    · exact absurd h hne
    · exact h
  · rw [if_neg hc]
    exact ⟨by simpa using hc, by simp, fun _ => rfl, by simp⟩

theorem C3_witness :
    (try_acquire "T1" ⟨"X", ValorLock.livre, none, ["T1", "T2"]⟩).2.transacao = some "T1" :=
  ((C3_try_acquire_guard "T1" ⟨"X", ValorLock.livre, none, ["T1", "T2"]⟩).2.1
    (by decide)).1

/-- C6: the two acquisition paths record a grant incompatibly.
`lock_recurso` (case 1) marks a grant by storing the boolean `True` in
`valor_lock`, while `Recurso.acquire` stores the tid string there; and
`Recurso.release`, whose guard compares `valor_lock` with the tid,
therefore leaves every resource locked through `lock_recurso` entirely
unchanged — it never frees it, for any caller. -/
theorem C6_release_never_frees_lock_recurso_grant :
    (∀ (t : Transacao) (r : Recurso) (g : GrafoEspera),
        r.valor_lock = ValorLock.livre → r.fila_espera = [] →
        lock_recurso_entry t r g
          = LockEntry.retTrue
              { r with valor_lock := ValorLock.flagTrue, transacao := some t.tid } g)
    ∧ (∀ (r : Recurso) (tid : String), r.valor_lock = ValorLock.livre →
        (r.acquire tid).2.valor_lock = ValorLock.porTid tid)
    ∧ (∀ (r : Recurso) (tid : String), r.valor_lock = ValorLock.flagTrue →
        r.release tid = r) := by
  refine ⟨fun t r g h1 h2 => ?_, fun r tid h => ?_, fun r tid h => ?_⟩
  · unfold lock_recurso_entry
    rw [if_pos ⟨h1, h2⟩]
  · unfold Recurso.acquire
    rw [if_pos h]
  · unfold Recurso.release
    rw [if_neg (by rw [h]; intro hc; cases hc)]

theorem C6_witness :
    Recurso.release heldByT0 "T0" = heldByT0 :=
  C6_release_never_frees_lock_recurso_grant.2.2 heldByT0 "T0" (by decide)

/-- C8: releasing a resource one does not hold is a no-op: when the
recorded holder differs from `t` (and the lock cell is coherent with the
recorded holder, as in every state the program produces), both
`Transacao.unlock_recurso` and `Recurso.release` leave the holder, the
lock cell and the wait queue unchanged. -/
theorem C8_release_nonholder_noop (t : String) (r : Recurso)
    (hcoh : ∀ u, r.valor_lock = ValorLock.porTid u → r.transacao = some u)
    (hne : r.transacao ≠ some t) :
    unlock_recurso t r = r ∧ r.release t = r := by
  constructor
  · unfold unlock_recurso
    rw [if_neg hne]
  · unfold Recurso.release
    rw [if_neg (fun hpt => hne (hcoh t hpt))]

theorem C8_witness :
    unlock_recurso "T1" heldByT0 = heldByT0 ∧ Recurso.release heldByT0 "T1" = heldByT0 :=
  C8_release_nonholder_noop "T1" heldByT0
    (fun u hu => ValorLock.noConfusion hu) (by decide)

/-- C10: `lock_recurso` is idempotent for the current holder: when the
caller is already the recorded holder (so the lock cell is not free),
the entry dispatch returns `True` through case 2 with the resource and
the wait-for graph both untouched. -/
theorem C10_lock_recurso_idempotent_for_holder (t : Transacao) (r : Recurso)
    (g : GrafoEspera) (hh : r.transacao = some t.tid)
    (hl : r.valor_lock ≠ ValorLock.livre) :
    lock_recurso_entry t r g = LockEntry.retTrue r g := by
  unfold lock_recurso_entry
  rw [if_neg (fun hc => hl hc.1), if_pos hh]

/-- C2 (evaluation of the code at a failing input): in the AB-BA
deadlock with requester `T1` (timestamp 3) waiting on `X` held by `T0`
(timestamp 10), the cycle detector fires, `apply_wait_die` decides to
keep waiting (requester strictly older, nobody aborted) — and yet the
wait-loop iteration of `lock_recurso` takes the `return False` at line
158, i.e. the call reports failure while the worker is not terminated,
contradicting both the spec's lock contract and `apply_wait_die`'s own
docstring. -/
theorem C2_lock_returns_false_on_wait_decision :
    detect_deadlock estadoAB.grafo "T1" = true
    ∧ apply_wait_die_run reqOlder dirAB ⟨"X", ValorLock.flagTrue, some "T0", ["T1"]⟩
        = some WaitDieOutcome.keptWaiting
    ∧ lock_loop_iter reqOlder "X" (some "T0") dirAB estadoAB
        = IterResult.waitDecisionFalse estadoAB
    ∧ reqOlder.terminada = false := by
  exact ⟨by decide, by decide, by decide, rfl⟩

/-- C4 counterexample: starting from the free resource `X` and the empty
wait-for graph, worker `T0` (timestamp 5) takes the lock, then worker
`T1` (timestamp 10) enters the wait path — and the edge `T1 → T0` is
inserted into the graph even though the source's timestamp 10 is not
smaller than the target's 5, refuting the claimed insertion guard. -/
theorem C4_counterexample_edge_with_ge_timestamp :
    (lock_recurso_entry ⟨"T1", 10, false⟩
        (lock_recurso_entry ⟨"T0", 5, false⟩ livreX GrafoEspera.empty).recursoOf
        GrafoEspera.empty).grafoOf.has_edge "T1" "T0" = true
    ∧ ¬ ((10 : Nat) < 5) := by
  exact ⟨by decide, by omega⟩

/-- C4 (amended): the wait edge inserted by `lock_recurso` (case 3) is
not guarded by any timestamp comparison: whenever the resource is not
free-with-empty-queue and records a holder other than the caller, the
edge `tid → holder` is added for every pair of timestamps; Wait-Die
instead aborts the younger requester only after a cycle has formed. -/
theorem C4_amended_edge_insertion_unconditional (t : Transacao) (r : Recurso)
    (g : GrafoEspera) (o : String)
    (h1 : ¬ (r.valor_lock = ValorLock.livre ∧ r.fila_espera = []))
    (h2 : r.transacao = some o) (h3 : o ≠ t.tid) :
    lock_recurso_entry t r g
      = LockEntry.waiting (some o)
          { r with fila_espera := r.fila_espera ++ [t.tid] } (g.add_edge t.tid o) := by
  unfold lock_recurso_entry
  rw [if_neg h1, if_neg (by rw [h2]; exact fun hc => h3 (by injection hc)), h2]

theorem C4_amended_witness :
    lock_recurso_entry ⟨"T1", 10, false⟩ heldByT0 GrafoEspera.empty
      = LockEntry.waiting (some "T0")
          { heldByT0 with fila_espera := heldByT0.fila_espera ++ ["T1"] }
          (GrafoEspera.empty.add_edge "T1" "T0") :=
  C4_amended_edge_insertion_unconditional ⟨"T1", 10, false⟩ heldByT0
    GrafoEspera.empty "T0" (by decide) (by decide) (by decide)

/-- C5: after the state effect of `Transacao.abort` (given the spec's
no-duplicate queue invariant on the pre-state), the victim is in no
resource's wait queue, holds no resource, has no node in the wait-for
graph, and its `terminada` flag is set. -/
theorem C5_abort_scrubs_everything (t : Transacao) (e : Estado)
    (hnd : ∀ r ∈ e.recursos, r.fila_espera.count t.tid ≤ 1) :
    (∀ r ∈ (abortEffect t e).1.recursos, t.tid ∉ r.fila_espera ∧ r.transacao ≠ some t.tid)
    ∧ ((abortEffect t e).1).grafo.has_node t.tid = false
    ∧ ((abortEffect t e).2).terminada = true := by
  refine ⟨?_, abortEffect_grafo_clean t e, rfl⟩
  intro r hr
  simp only [abortEffect, List.mem_map] at hr
  obtain ⟨r0, hr0, rfl⟩ := hr
  constructor
  · rw [abortRecurso_fila]
    exact not_mem_erase_of_count_le_one _ _ (hnd r0 hr0)
  · exact abortRecurso_transacao_ne _ _

theorem C5_witness :
    (∀ r ∈ (abortEffect reqOlder estadoAB).1.recursos,
        "T1" ∉ r.fila_espera ∧ r.transacao ≠ some "T1")
    ∧ ((abortEffect reqOlder estadoAB).1).grafo.has_node "T1" = false
    ∧ ((abortEffect reqOlder estadoAB).2).terminada = true :=
  C5_abort_scrubs_everything reqOlder estadoAB (by decide)

/-- C7: the state effect of `Transacao.abort` is idempotent (with the
spec's no-duplicate queue invariant on the pre-state): running the abort
cleanup a second time for the already-terminated worker mutates no wait
queue, no holder, and no wait-for-graph node. -/
theorem C7_abort_idempotent (t : Transacao) (e : Estado)
    (hnd : ∀ r ∈ e.recursos, r.fila_espera.count t.tid ≤ 1) :
    abortEffect (abortEffect t e).2 (abortEffect t e).1 = abortEffect t e := by
  have hg : ((abortEffect t e).1).grafo.has_node t.tid = false :=
    abortEffect_grafo_clean t e
  have hrec : ((abortEffect t e).1).recursos.map (abortRecurso t.tid)
      = ((abortEffect t e).1).recursos := by
    have hself : ((abortEffect t e).1).recursos = e.recursos.map (abortRecurso t.tid) := rfl
    rw [hself, List.map_map]
    apply List.map_congr_left
    intro r0 hr0
    exact abortRecurso_idem t.tid r0 (hnd r0 hr0)
  have hg2 : (if e.grafo.has_node t.tid = true then e.grafo.remove_node t.tid
      else e.grafo).has_node t.tid = false := hg
  have hrec2 : List.map (abortRecurso t.tid) (List.map (abortRecurso t.tid) e.recursos)
      = List.map (abortRecurso t.tid) e.recursos := hrec
  conv_lhs => unfold abortEffect
  rw [hrec2, hg2]
  rfl

theorem C7_witness :
    abortEffect (abortEffect reqOlder estadoAB).2 (abortEffect reqOlder estadoAB).1
      = abortEffect reqOlder estadoAB :=
  C7_abort_idempotent reqOlder estadoAB (by decide)

/-- C9: the `while not terminada` loop of `Transacao.run` executes the
access schedule at most once, whatever the schedule body does and
whether it commits or is cut short by a caught `AbortException`: the
`finally` arm sets `terminada`, so an already-terminated worker runs the
schedule zero times and a fresh worker runs it exactly once and ends
with `terminada = true` — aborted transactions are never restarted. -/
theorem C9_run_executes_schedule_at_most_once
    (body : Transacao → Estado → Transacao × Estado × RunOutcome)
    (fuel : Nat) (t : Transacao) (e : Estado) :
    (run_loop body fuel t e).2.2 ≤ 1
    ∧ (t.terminada = true → (run_loop body fuel t e).2.2 = 0)
    ∧ (t.terminada = false → 1 ≤ fuel →
        (run_loop body fuel t e).2.2 = 1
        ∧ (run_loop body fuel t e).1.terminada = true) := by
  cases fuel with
  | zero =>
    exact ⟨by simp [run_loop], fun _ => rfl, fun _ hf => absurd hf (by omega)⟩
  | succ n =>
    by_cases ht : t.terminada = true
    · have hr : run_loop body (n + 1) t e = (t, e, 0) :=
        run_loop_of_terminada body (n + 1) t e ht
      rw [hr]
      exact ⟨by simp, fun _ => rfl, fun hf _ => by rw [ht] at hf; cases hf⟩
    · have ht' : t.terminada = false := by simpa using ht
      have hbody : (setTerminada (body t e).1).terminada = true := rfl
      have hr : run_loop body (n + 1) t e
          = (setTerminada (body t e).1, (body t e).2.1, 1) := by
        simp only [run_loop, ht', Bool.false_eq_true, if_false]
        rw [run_loop_of_terminada body n _ _ hbody]
      rw [hr]
      refine ⟨by simp, ?_, ?_⟩
      · intro hc
        rw [ht'] at hc
        cases hc
      · intro _ _
        exact ⟨rfl, rfl⟩

theorem C9_witness :
    (run_loop idBody 3 runWorker ⟨[], GrafoEspera.empty⟩).2.2 = 1
    ∧ (run_loop idBody 3 runWorker ⟨[], GrafoEspera.empty⟩).1.terminada = true :=
  (C9_run_executes_schedule_at_most_once idBody 3 runWorker
    ⟨[], GrafoEspera.empty⟩).2.2 rfl (by omega)

theorem C10_witness :
    lock_recurso_entry ⟨"T0", 5, false⟩ heldByT0 cycleAB = LockEntry.retTrue heldByT0 cycleAB :=
  C10_lock_recurso_idempotent_for_holder ⟨"T0", 5, false⟩ heldByT0 cycleAB
    (by decide) (by decide)

end Simulador
